import Mathlib

/-!
Verification development for the lyra-nlosvlc real-time audio streaming
examples (`realtime_receiver.cc`, `realtime_sender.cc`, `realtime_demo.cc`).

The C++ sources are shallowly embedded here:
* `std::queue` values become Lean `List`s with the head of the list as the
  queue front; `push` appends at the tail, `front`/`pop` read and remove the
  head.
* Each thread-loop body becomes a pure step function on the explicit queue
  state; the surrounding `while(!g_finished)` loop becomes recursion over a
  finite trace of inputs (receive results, packets, iterations).
* The Lyra codec is an external collaborator: it is a parameter
  (`LyraDecoder` below) holding the two operations the pipeline calls,
  `SetEncodedPacket` (accept, a `Bool`) and `DecodeSamples` (produce,
  an `Option` of a sample list).
* PCM samples (C++ `int16_t`) are `Int`, packet bytes (`uint8_t`) are `Nat`;
  no claim depends on overflow behaviour of either.

The file lists all definitions first, then all theorems.
-/

/-- Configuration constant from all three sources: `kSampleRate = 16000`. -/
def kSampleRate : Nat := 16000

/-- Configuration constant: `kFramesPerBuffer = kSampleRate / 50` (= 320). -/
def kFramesPerBuffer : Nat := kSampleRate / 50

/-- PortAudio's `paContinue` stream-callback return value (numerically 0). -/
def paContinue : Int := 0

/-! ## Queue primitives

`std::queue<T>` used under a mutex, as in `g_jitter_buffer`,
`g_pcm_buffer` and `g_encoded_packets_queue`.  The queue is a `List` whose
head is the queue front.  `qpush` is `q.push(item)`; `tryPop` is the guarded
`if (!q.empty()) { x = q.front(); q.pop(); }` pattern every consumer in the
sources uses. -/

/-- `push(item)`: append at the tail. -/
def qpush {α : Type} (q : List α) (x : α) : List α := q ++ [x]

/-- `try_pop()`: return the front and the remaining queue when non-empty,
`none` and the unchanged (empty) queue when empty. -/
def tryPop {α : Type} (q : List α) : Option α × List α :=
  match q with
  | [] => (none, [])
  | h :: t => (some h, t)

/-- The Lyra decoder collaborator, as the pipeline calls it:
`SetEncodedPacket` accepts or rejects a packet, `DecodeSamples` then
produces the requested number of samples or fails.  Since the C++ decoder
holds the set packet as internal state, both operations are modelled as
functions of that packet. -/
structure LyraDecoder where
  SetEncodedPacket : List Nat → Bool
  DecodeSamples : List Nat → Nat → Option (List Int)

/-! ## realtime_receiver.cc

`audioCallback` (lines 116-134):
```
for (int i = 0; i < frameCount; ++i) {
  if (!g_pcm_buffer.empty()) { out[i] = g_pcm_buffer.front(); g_pcm_buffer.pop(); }
  else { out[i] = 0; }
}
return paContinue;
```

`network_thread_func` receive loop (lines 66-75):
```
while(!g_finished) {
  std::vector<uint8_t> buffer(256);
  int bytes_received = recvfrom(g_socket_handle, buffer.data(), buffer.size(), 0, nullptr, nullptr);
  if(bytes_received > 0) { buffer.resize(bytes_received); g_jitter_buffer.push(buffer); }
}
```

`decoder_thread_func` (lines 87-112):
```
while(!g_finished) {
  std::vector<uint8_t> encoded_packet;
  { lock(g_jitter_mutex);
    if(!g_jitter_buffer.empty()) { encoded_packet = g_jitter_buffer.front(); g_jitter_buffer.pop(); } }
  if(!encoded_packet.empty()) {
    if(decoder->SetEncodedPacket(encoded_packet)) {
      auto decoded = decoder->DecodeSamples(kFramesPerBuffer);
      if(decoded.has_value()) {
        lock(g_pcm_mutex);
        for(int16_t sample : decoded.value()) g_pcm_buffer.push(sample);
      }
    }
  } else { sleep_for(5ms); }
}
```
-/

namespace RealtimeReceiver

/-- The `for` loop of the receiver's `audioCallback`: one iteration per
remaining output position; pops the front sample when the queue is
non-empty, writes `0` otherwise. -/
def audioCallbackLoop : Nat → List Int → List Int → List Int × List Int
  | 0, out, q => (out, q)
  | Nat.succ n, out, q =>
    match q with
    | [] => audioCallbackLoop n (out ++ [0]) []
    | h :: t => audioCallbackLoop n (out ++ [h]) t

/-- Receiver `audioCallback`: fills `frameCount` output samples from the
PCM queue and returns `(output, remaining queue, paContinue)`. -/
def audioCallback (frameCount : Nat) (pcm : List Int) :
    List Int × List Int × Int :=
  let r := audioCallbackLoop frameCount [] pcm
  (r.1, r.2, paContinue)

/-- One iteration of the receive loop, as a function of the `recvfrom`
outcome: the returned length `bytes_received` and the buffer contents
after the call (whose first `bytes_received` entries are the received
datagram bytes).  On a positive receive, `resize` truncates the 256-byte
buffer to exactly the received bytes, which are pushed; otherwise nothing
happens. -/
def network_thread_body (bytes_received : Int) (buffer : List Nat)
    (jitter : List (List Nat)) : List (List Nat) :=
  if bytes_received > 0 then qpush jitter (buffer.take bytes_received.toNat)
  else jitter

/-- The receive loop run over a finite trace of `recvfrom` outcomes (the
results seen before the shutdown flag is observed). -/
def network_thread_loop :
    List (Int × List Nat) → List (List Nat) → List (List Nat)
  | [], jitter => jitter
  | r :: rs, jitter => network_thread_loop rs (network_thread_body r.1 r.2 jitter)

/-- One iteration of `decoder_thread_func`: pop one packet from the jitter
buffer when available (otherwise `encoded_packet` stays the empty vector
and the branch below treats it as absent and sleeps); for a non-empty
popped packet, set it on the decoder and, on acceptance and successful
decode, push every decoded sample in order onto the PCM buffer.  Returns
the new `(jitter, pcm)` state. -/
def decoder_thread_body (decoder : LyraDecoder)
    (jitter : List (List Nat)) (pcm : List Int) :
    List (List Nat) × List Int :=
  match jitter with
  | [] => ([], pcm)
  | encoded_packet :: rest =>
    if encoded_packet.isEmpty then (rest, pcm)
    else if decoder.SetEncodedPacket encoded_packet then
      match decoder.DecodeSamples encoded_packet kFramesPerBuffer with
      | some decoded => (rest, pcm ++ decoded)
      | none => (rest, pcm)
    else (rest, pcm)

/-- `decoder_thread_func` run until the jitter buffer is drained, as in the
no-network injection scenario: one body iteration per queued packet (each
iteration consumes exactly the head packet, see `decoder_thread_body_fst`
below). -/
def decoder_thread_drain (decoder : LyraDecoder) :
    List (List Nat) → List Int → List Int
  | [], pcm => pcm
  | p :: rest, pcm =>
    decoder_thread_drain decoder rest
      (decoder_thread_body decoder (p :: rest) pcm).2

end RealtimeReceiver

/-- A decoder instance that accepts every packet and decodes it to the
requested number of zero samples (used as the concrete witness decoder). -/
def zeroDecoder : LyraDecoder :=
  ⟨fun _ => true, fun _ k => some (List.replicate k 0)⟩

/-! ## The queue contract (C7)

`g_jitter_buffer`, `g_pcm_buffer` (realtime_receiver.cc lines 34-37) and
`g_encoded_packets_queue` (realtime_sender.cc lines 36-37) are each a
`std::queue` guarded by one mutex, with one fixed producer thread pushing
and one fixed consumer thread running the guarded front/pop.  The mutex
makes each `push`/`try_pop` atomic, so any concurrent run is equivalent to
some interleaving: a sequence of `QOp` operations applied one at a time. -/

/-- One producer/consumer operation on a shared queue. -/
inductive QOp (α : Type) where
  | push (x : α)
  | tryPop

/-- Run a sequence of operations from a queue state, recording the items
the consumer observed, in observation order. -/
def runQOps {α : Type} : List (QOp α) → List α → List α → List α × List α
  | [], q, observed => (q, observed)
  | QOp.push x :: rest, q, observed => runQOps rest (qpush q x) observed
  | QOp.tryPop :: rest, q, observed =>
    match tryPop q with
    | (some x, q') => runQOps rest q' (observed ++ [x])
    | (none, q') => runQOps rest q' observed

/-- The items pushed by a sequence of operations, in push order. -/
def pushedItems {α : Type} (ops : List (QOp α)) : List α :=
  ops.filterMap fun op =>
    match op with
    | QOp.push x => some x
    | QOp.tryPop => none

/-! ## Shutdown sequences (C2)

The cleanup actions each `main` performs after the user presses Enter, in
source order.  Receiver (realtime_receiver.cc lines 170-186):
`g_finished = true`, `shutdown(g_socket_handle, SHUT_RDWR)`,
`network_thread.join()`, `decoder_thread.join()`, `Pa_StopStream`,
`Pa_CloseStream`, `Pa_Terminate`.  Sender (realtime_sender.cc lines
140-145): `g_finished = true`, `Pa_StopStream`, `Pa_CloseStream`,
`Pa_Terminate`, `network_thread.join()` — with no transport shutdown at
all. -/

/-- A shutdown-sequence action.  `joinThread 0` is the network thread,
`joinThread 1` the decoder thread. -/
inductive StopEvent where
  | setShutdownFlag
  | shutdownTransport
  | joinThread (id : Nat)
  | stopAudioStream
  | closeAudioStream
  | terminateAudio
  deriving DecidableEq

/-- The receiver `main`'s cleanup actions, in source order (lines 170-186). -/
def receiverStopSequence : List StopEvent :=
  [StopEvent.setShutdownFlag, StopEvent.shutdownTransport,
   StopEvent.joinThread 0, StopEvent.joinThread 1,
   StopEvent.stopAudioStream, StopEvent.closeAudioStream,
   StopEvent.terminateAudio]

/-- The sender `main`'s cleanup actions, in source order (lines 140-145). -/
def senderStopSequence : List StopEvent :=
  [StopEvent.setShutdownFlag, StopEvent.stopAudioStream,
   StopEvent.closeAudioStream, StopEvent.terminateAudio,
   StopEvent.joinThread 0]

/-- Is this event a thread join? -/
def isJoinEvent : StopEvent → Bool
  | StopEvent.joinThread _ => true
  | _ => false

/-- Is this event a stop or close of the audio stream? -/
def isAudioTeardown : StopEvent → Bool
  | StopEvent.stopAudioStream => true
  | StopEvent.closeAudioStream => true
  | _ => false

/-- Is this event the forced transport shutdown/close? -/
def isTransportShutdown : StopEvent → Bool
  | StopEvent.shutdownTransport => true
  | _ => false

/-- The ordering the claim demands of a stop sequence: first set the
Shutdown Flag, then force-close/shut down the Transport Handle, and join
every worker thread strictly before any audio-stream stop or close.
(Formalised from the spec's words, to be checked against the transcribed
source sequences.) -/
def claimedStopOrder (evs : List StopEvent) : Bool :=
  match evs with
  | StopEvent.setShutdownFlag :: StopEvent.shutdownTransport :: rest =>
    rest.any isJoinEvent && rest.any isAudioTeardown &&
      ((rest.dropWhile fun e => !(isAudioTeardown e)).all
        fun e => !(isJoinEvent e))
  | _ => false

/-- The ordering the sender actually implements: flag first, never any
transport shutdown, and the audio-stream stop/close strictly before the
thread join. -/
def senderActualStopOrder (evs : List StopEvent) : Bool :=
  match evs with
  | StopEvent.setShutdownFlag :: rest =>
    rest.all (fun e => !(isTransportShutdown e)) &&
      rest.any isJoinEvent && rest.any isAudioTeardown &&
      ((rest.dropWhile fun e => !(isJoinEvent e)).all
        fun e => !(isAudioTeardown e))
  | _ => false

/-! ## Exit codes (C3)

Each `main`'s exit code as a function of the outcomes of its runtime
steps.  The receiver (realtime_receiver.cc lines 136-190) checks only the
argument count (line 137, exit 1) and decoder creation (line 146, exit 1);
socket creation and bind failures happen inside `network_thread_func`
(lines 51-63), which merely prints an error and returns from the thread,
and the return values of `Pa_Initialize`/`Pa_OpenStream`/`Pa_StartStream`
(lines 155-166) are never examined, so neither affects the exit code; the
clean path returns 0 (line 189).  The sender (realtime_sender.cc lines
105-148) is analogous with the encoder.  The demo (realtime_demo.cc lines
86-165) wraps every PortAudio call in `PA_CHECK` (goto error, return 1)
and checks both codec instances and both default devices.  Parameters for
outcomes the source never examines are kept (underscored) precisely to
show the exit code's independence of them. -/

/-- Exit code of the receiver executable. -/
def receiver_main (argcOk decoderCreateOk _socketCreateOk _bindOk
    _paOpenOk _paStartOk : Bool) : Nat :=
  if !argcOk then 1
  else if !decoderCreateOk then 1
  else 0

/-- Exit code of the sender executable. -/
def sender_main (argcOk encoderCreateOk _socketCreateOk
    _paOpenOk _paStartOk : Bool) : Nat :=
  if !argcOk then 1
  else if !encoderCreateOk then 1
  else 0

/-- Exit code of the loopback demo executable. -/
def demo_main (encoderCreateOk decoderCreateOk paInitOk inputDeviceOk
    outputDeviceOk paOpenOk paStartOk paStopOk paCloseOk : Bool) : Nat :=
  if !(encoderCreateOk && decoderCreateOk) then 1
  else if !paInitOk then 1
  else if !inputDeviceOk then 1
  else if !outputDeviceOk then 1
  else if !paOpenOk then 1
  else if !paStartOk then 1
  else if !paStopOk then 1
  else if !paCloseOk then 1
  else 0

/-! ## realtime_demo.cc : audioCallback (lines 49-85)

```
std::optional<std::vector<uint8_t>> encoded = encoder->Encode(MakeConstSpan(in, frameCount));
if (encoded.has_value()) {
  if (decoder->SetEncodedPacket(encoded.value())) {
    std::optional<std::vector<int16_t>> decoded = decoder->DecodeSamples(frameCount);
    if (decoded.has_value()) { std::copy(decoded.value().begin(), decoded.value().end(), out); }
    else { std::fill(out, out + frameCount * kNumChannels, 0); }
  } else { std::fill(out, out + frameCount * kNumChannels, 0); }
} else { std::fill(out, out + frameCount * kNumChannels, 0); }
return paContinue;
```
`kNumChannels = 1`, so each `std::fill` zeroes exactly `frameCount`
samples.  `prevOut` is the output buffer contents before the callback; on
the success path `std::copy` overwrites its prefix with the decoded
samples and leaves the rest. -/

namespace RealtimeDemo

/-- The demo's `audioCallback`, as a function of the collaborator
outcomes: `encoded` is the result of `encoder->Encode` on this frame, and
the decoder operations are applied as in the source.  Returns the output
buffer contents and the callback return value. -/
def audioCallback (frameCount : Nat) (prevOut : List Int)
    (encoded : Option (List Nat)) (decoder : LyraDecoder) :
    List Int × Int :=
  match encoded with
  | some pkt =>
    if decoder.SetEncodedPacket pkt then
      match decoder.DecodeSamples pkt frameCount with
      | some decoded => (decoded ++ prevOut.drop decoded.length, paContinue)
      | none => (List.replicate frameCount 0, paContinue)
    else (List.replicate frameCount 0, paContinue)
  | none => (List.replicate frameCount 0, paContinue)

end RealtimeDemo

/-! ## Helper theorems -/

namespace RealtimeReceiver

/-- Closed form of the callback loop: the output extends `out` with the
first `n` queued samples then zeros, and the queue loses its first `n`
samples. -/
theorem audioCallbackLoop_spec (n : Nat) :
    ∀ (out q : List Int),
      audioCallbackLoop n out q =
        (out ++ (q.take n ++ List.replicate (n - q.length) 0), q.drop n) := by
  induction n with
  | zero =>
    intro out q
    simp [audioCallbackLoop]
  | succ n ih =>
    intro out q
    match q with
    | [] =>
      rw [audioCallbackLoop, ih]
      simp [List.replicate_succ]
    | h :: t =>
      rw [audioCallbackLoop, ih]
      simp [List.take_succ_cons, List.drop_succ_cons, Nat.succ_sub_succ]

/-- `getD` on a list of copies of the default value is always that value. -/
theorem getD_replicate_self {α : Type} (a : α) :
    ∀ (m k : Nat), (List.replicate m a).getD k a = a
  | 0, _ => rfl
  | _ + 1, 0 => rfl
  | m + 1, k + 1 => getD_replicate_self a m k

/-- The receive loop appends, in order, one packet per positive receive in
the trace — failed and zero-length receives contribute nothing and do not
stop subsequent enqueues. -/
theorem network_thread_loop_spec :
    ∀ (trace : List (Int × List Nat)) (jitter : List (List Nat)),
      network_thread_loop trace jitter =
        jitter ++ trace.filterMap fun r =>
          if r.1 > 0 then some (r.2.take r.1.toNat) else none
  | [], jitter => by simp [network_thread_loop]
  | r :: rs, jitter => by
    rw [network_thread_loop, network_thread_loop_spec rs]
    by_cases h : r.1 > 0
    · simp [network_thread_body, qpush, h]
    · simp [network_thread_body, h]

/-- Each decoder-thread iteration removes exactly the head packet from the
jitter buffer (or leaves an empty buffer empty). -/
theorem decoder_thread_body_fst (decoder : LyraDecoder)
    (jitter : List (List Nat)) (pcm : List Int) :
    (decoder_thread_body decoder jitter pcm).1 = jitter.drop 1 := by
  match jitter with
  | [] => rfl
  | p :: rest =>
    simp only [decoder_thread_body, List.drop_succ_cons, List.drop_zero]
    split
    · rfl
    · split
      · split <;> rfl
      · rfl

/-- When every queued packet is non-empty, accepted, and decoded to
`frameOf p`, draining appends the decoded frames, concatenated in original
packet order, to the PCM buffer. -/
theorem decoder_thread_drain_spec (decoder : LyraDecoder)
    (frameOf : List Nat → List Int) :
    ∀ (packets : List (List Nat)) (pcm : List Int),
      (∀ p ∈ packets, p ≠ []) →
      (∀ p ∈ packets, decoder.SetEncodedPacket p = true) →
      (∀ p ∈ packets,
        decoder.DecodeSamples p kFramesPerBuffer = some (frameOf p)) →
      decoder_thread_drain decoder packets pcm =
        pcm ++ (packets.map frameOf).flatten
  | [], pcm, _, _, _ => by simp [decoder_thread_drain]
  | p :: rest, pcm, hne, hacc, hdec => by
    obtain ⟨a, t, hp⟩ := List.exists_cons_of_ne_nil (hne p (by simp))
    rw [decoder_thread_drain]
    have hbody :
        (decoder_thread_body decoder (p :: rest) pcm).2 =
          pcm ++ frameOf p := by
      have haccept := hacc p (List.mem_cons_self p rest)
      have hsome := hdec p (List.mem_cons_self p rest)
      subst hp
      simp [decoder_thread_body, haccept, hsome]
    rw [hbody,
      decoder_thread_drain_spec decoder frameOf rest (pcm ++ frameOf p)
        (fun q hq => hne q (by simp [hq]))
        (fun q hq => hacc q (by simp [hq]))
        (fun q hq => hdec q (by simp [hq]))]
    simp

/-- With `zeroDecoder`, draining `n` one-byte packets grows the PCM buffer
by exactly `320 * n` samples — nothing is ever dropped. -/
theorem zeroDecoder_drain_length :
    ∀ (n : Nat) (pcm : List Int),
      (decoder_thread_drain zeroDecoder (List.replicate n [1]) pcm).length =
        pcm.length + 320 * n
  | 0, pcm => by simp [decoder_thread_drain]
  | n + 1, pcm => by
    rw [List.replicate_succ, decoder_thread_drain]
    have hbody :
        (decoder_thread_body zeroDecoder
          ([1] :: List.replicate n [1]) pcm).2 =
          pcm ++ List.replicate kFramesPerBuffer 0 := rfl
    rw [hbody, zeroDecoder_drain_length n, List.length_append,
      List.length_replicate, show kFramesPerBuffer = 320 from rfl]
    ring

end RealtimeReceiver

/-- Queue invariant: observed items followed by the queue contents always
equal the initially present plus pushed items, in order. -/
theorem runQOps_invariant {α : Type} :
    ∀ (ops : List (QOp α)) (q observed : List α),
      (runQOps ops q observed).2 ++ (runQOps ops q observed).1 =
        observed ++ q ++ pushedItems ops
  | [], q, observed => by simp [runQOps, pushedItems]
  | QOp.push x :: rest, q, observed => by
    rw [runQOps, runQOps_invariant rest]
    simp [qpush, pushedItems]
  | QOp.tryPop :: rest, q, observed => by
    match q with
    | [] =>
      rw [runQOps]
      show (runQOps rest [] observed).2 ++ (runQOps rest [] observed).1 = _
      rw [runQOps_invariant rest]
      simp [pushedItems]
    | h :: t =>
      rw [runQOps]
      show (runQOps rest t (observed ++ [h])).2 ++
          (runQOps rest t (observed ++ [h])).1 = _
      rw [runQOps_invariant rest]
      simp [pushedItems]

/-! ## Claim theorems -/

/-- C1: in the receiver's playback callback with required output length `N`
and Sample Queue `q`, the output has length `N`; position `i` receives the
sample popped from the queue head at that step (which is `q[i]`, the queue
having been popped `i` times before) whenever the queue is still non-empty
there; once the queue is exhausted, that position and all remaining
positions are silence (0); and when the queue is empty at entry the whole
frame is zeros and the queue stays empty. -/
theorem C1_playback_callback_underrun (N : Nat) (q : List Int) :
    (RealtimeReceiver.audioCallback N q).1.length = N ∧
    (∀ i, i < N → i < q.length →
      (RealtimeReceiver.audioCallback N q).1.getD i 0 = q.getD i 0) ∧
    (∀ i, i < N → q.length ≤ i →
      (RealtimeReceiver.audioCallback N q).1.getD i 0 = 0) ∧
    (q = [] →
      (RealtimeReceiver.audioCallback N q).1 = List.replicate N 0 ∧
      (RealtimeReceiver.audioCallback N q).2.1 = []) := by
  have hspec := RealtimeReceiver.audioCallbackLoop_spec N [] q
  refine ⟨?_, ?_, ?_, ?_⟩
  · simp [RealtimeReceiver.audioCallback, hspec]
    omega
  · intro i hiN hiq
    simp only [RealtimeReceiver.audioCallback, hspec, List.nil_append]
    have hlt : i < (q.take N).length := by
      simp [List.length_take]; omega
    rw [List.getD_append _ _ _ _ hlt]
    simp only [List.getD_eq_getElem?_getD]
    rw [List.getElem?_take]
    simp [hiN]
  · intro i hiN hqi
    simp only [RealtimeReceiver.audioCallback, hspec, List.nil_append]
    have htake : q.take N = q := List.take_of_length_le (by omega)
    rw [htake, List.getD_append_right _ _ _ _ hqi]
    exact RealtimeReceiver.getD_replicate_self 0 _ _
  · rintro rfl
    simp [RealtimeReceiver.audioCallback, hspec]

/-- Witness for C1 at `N = 3`, `q = [5, 7]` and at the empty queue. -/
theorem C1_playback_callback_underrun_witness :
    (RealtimeReceiver.audioCallback 3 [5, 7]).1.getD 1 0 =
      ([5, 7] : List Int).getD 1 0 ∧
    (RealtimeReceiver.audioCallback 3 [5, 7]).1.getD 2 0 = 0 ∧
    (RealtimeReceiver.audioCallback 3 ([] : List Int)).1 =
      List.replicate 3 0 :=
  ⟨(C1_playback_callback_underrun 3 [5, 7]).2.1 1 (by decide) (by decide),
   (C1_playback_callback_underrun 3 [5, 7]).2.2.1 2 (by decide) (by decide),
   ((C1_playback_callback_underrun 3 []).2.2.2 rfl).1⟩

/-- C9: the playback callback with request `N` on a queue holding `M`
samples pops exactly `min N M` samples (the remaining queue is `q.drop N`,
so `max (M - N) 0` samples stay, unchanged and in order, for the next
invocation), every popped sample is written to the output (the first
`min N M` output samples are exactly the popped prefix in order), and the
callback returns `paContinue`. -/
theorem C9_playback_no_discard (N : Nat) (q : List Int) :
    (RealtimeReceiver.audioCallback N q).2.1 = q.drop N ∧
    q.length - (RealtimeReceiver.audioCallback N q).2.1.length =
      min N q.length ∧
    (RealtimeReceiver.audioCallback N q).2.1.length = q.length - N ∧
    (RealtimeReceiver.audioCallback N q).1.take (min N q.length) =
      q.take N ∧
    (RealtimeReceiver.audioCallback N q).2.2 = paContinue := by
  have hspec := RealtimeReceiver.audioCallbackLoop_spec N [] q
  refine ⟨?_, ?_, ?_, ?_, rfl⟩
  · simp [RealtimeReceiver.audioCallback, hspec]
  · simp [RealtimeReceiver.audioCallback, hspec, List.length_drop]
    omega
  · simp [RealtimeReceiver.audioCallback, hspec, List.length_drop]
  · simp only [RealtimeReceiver.audioCallback, hspec, List.nil_append]
    have hlen : min N q.length = (q.take N).length := by
      simp [List.length_take]
    rw [hlen, List.take_left]

/-- C4: in each iteration of the network receiver loop, a receive of
length `> 0` enqueues exactly one packet, holding exactly the received
bytes, at the tail of the Packet Queue; a receive returning `0` or a
negative (failure) result enqueues nothing; and over any trace of receive
outcomes the loop keeps running, enqueuing exactly the packets of the
positive receives in order. -/
theorem C4_network_receive_loop (bytes_received : Int) (buffer : List Nat)
    (jitter : List (List Nat)) :
    (bytes_received > 0 →
      RealtimeReceiver.network_thread_body bytes_received buffer jitter =
        jitter ++ [buffer.take bytes_received.toNat]) ∧
    (bytes_received ≤ 0 →
      RealtimeReceiver.network_thread_body bytes_received buffer jitter =
        jitter) ∧
    (∀ trace : List (Int × List Nat),
      RealtimeReceiver.network_thread_loop trace jitter =
        jitter ++ trace.filterMap fun r =>
          if r.1 > 0 then some (r.2.take r.1.toNat) else none) := by
  refine ⟨?_, ?_, ?_⟩
  · intro h
    simp [RealtimeReceiver.network_thread_body, qpush, h]
  · intro h
    simp [RealtimeReceiver.network_thread_body, not_lt.mpr h]
  · intro trace
    exact RealtimeReceiver.network_thread_loop_spec trace jitter

/-- Witness for C4: a 3-byte receive into a longer buffer enqueues exactly
those 3 bytes; a failed (-1) receive enqueues nothing. -/
theorem C4_network_receive_loop_witness :
    RealtimeReceiver.network_thread_body 3 [10, 20, 30, 40, 50] [] =
      [[10, 20, 30]] ∧
    RealtimeReceiver.network_thread_body (-1) [10, 20, 30, 40, 50] [[7]] =
      [[7]] :=
  ⟨(C4_network_receive_loop 3 [10, 20, 30, 40, 50] []).1 (by decide),
   (C4_network_receive_loop (-1) [10, 20, 30, 40, 50] [[7]]).2.1 (by decide)⟩

/-- C5: for a non-empty packet at the head of the Packet Queue: if the
codec refuses the packet, or accepts it but produces no frame, the packet
is removed and the Sample Queue is unchanged; if decode succeeds, the
packet is removed and every sample of the decoded frame is appended to the
Sample Queue in frame order; and in every case the worker loop simply
continues with the rest of the queue — a decode failure never terminates
it. -/
theorem C5_decode_failure_nonfatal (decoder : LyraDecoder) (p : List Nat)
    (rest : List (List Nat)) (pcm : List Int) (hne : p ≠ []) :
    (decoder.SetEncodedPacket p = false →
      RealtimeReceiver.decoder_thread_body decoder (p :: rest) pcm =
        (rest, pcm)) ∧
    (decoder.SetEncodedPacket p = true →
      decoder.DecodeSamples p kFramesPerBuffer = none →
      RealtimeReceiver.decoder_thread_body decoder (p :: rest) pcm =
        (rest, pcm)) ∧
    (∀ decoded, decoder.SetEncodedPacket p = true →
      decoder.DecodeSamples p kFramesPerBuffer = some decoded →
      RealtimeReceiver.decoder_thread_body decoder (p :: rest) pcm =
        (rest, pcm ++ decoded)) ∧
    (RealtimeReceiver.decoder_thread_drain decoder (p :: rest) pcm =
      RealtimeReceiver.decoder_thread_drain decoder rest
        (RealtimeReceiver.decoder_thread_body decoder (p :: rest) pcm).2) := by
  obtain ⟨a, t, rfl⟩ := List.exists_cons_of_ne_nil hne
  refine ⟨?_, ?_, ?_, rfl⟩
  · intro hrefuse
    simp [RealtimeReceiver.decoder_thread_body, hrefuse]
  · intro haccept hnone
    simp [RealtimeReceiver.decoder_thread_body, haccept, hnone]
  · intro decoded haccept hsome
    simp [RealtimeReceiver.decoder_thread_body, haccept, hsome]

/-- Witness for C5: a decoder that accepts but fails to produce a frame
leaves the Sample Queue unchanged and removes the packet. -/
theorem C5_decode_failure_nonfatal_witness :
    RealtimeReceiver.decoder_thread_body
      ⟨fun _ => true, fun _ _ => none⟩ [[1]] [8] = ([], [8]) :=
  (C5_decode_failure_nonfatal ⟨fun _ => true, fun _ _ => none⟩ [1] [] [8]
    (by decide)).2.1 rfl rfl

/-- C6: given 50 queued packets, each non-empty, each accepted by the codec
and decoded to a 320-sample frame, draining the Packet Queue from an empty
Sample Queue leaves the Sample Queue holding exactly the concatenation of
the 50 decoded frames in original packet order — 16000 samples in all. -/
theorem C6_fifty_packets_drain (decoder : LyraDecoder)
    (packets : List (List Nat)) (frameOf : List Nat → List Int)
    (hcount : packets.length = 50)
    (hne : ∀ p ∈ packets, p ≠ [])
    (hacc : ∀ p ∈ packets, decoder.SetEncodedPacket p = true)
    (hdec : ∀ p ∈ packets,
      decoder.DecodeSamples p kFramesPerBuffer = some (frameOf p))
    (hflen : ∀ p ∈ packets, (frameOf p).length = 320) :
    RealtimeReceiver.decoder_thread_drain decoder packets [] =
      (packets.map frameOf).flatten ∧
    (RealtimeReceiver.decoder_thread_drain decoder packets []).length =
      16000 := by
  have hdrain :=
    RealtimeReceiver.decoder_thread_drain_spec decoder frameOf packets []
      hne hacc hdec
  refine ⟨by simpa using hdrain, ?_⟩
  rw [hdrain]
  simp only [List.nil_append, List.length_flatten, List.map_map]
  have hmap : packets.map (List.length ∘ frameOf) =
      packets.map fun _ => 320 :=
    List.map_congr_left fun p hp => hflen p hp
  rw [hmap, List.map_const', hcount]
  simp [List.sum_replicate]

/-- Witness for C6 with `zeroDecoder` and 50 one-byte packets. -/
theorem C6_fifty_packets_drain_witness :
    (RealtimeReceiver.decoder_thread_drain zeroDecoder
      (List.replicate 50 [1]) []).length = 16000 :=
  (C6_fifty_packets_drain zeroDecoder (List.replicate 50 [1])
    (fun _ => List.replicate 320 0)
    (by simp)
    (fun p hp => by rw [List.eq_of_mem_replicate hp]; decide)
    (fun _ _ => rfl)
    (fun _ _ => rfl)
    (fun _ _ => List.length_replicate _ _)).2

/-- Counterexample to C8: no maximum Sample Queue depth exists — for every
candidate cap `D`, running the Decode Worker (which enqueues without any
depth check, per lines 97-109 of realtime_receiver.cc) over enough packets
drives the Sample Queue past `D`. -/
theorem C8_no_depth_cap_counterexample :
    ¬ ∃ D : Nat, ∀ n : Nat,
      (RealtimeReceiver.decoder_thread_drain zeroDecoder
        (List.replicate n [1]) []).length ≤ D := by
  rintro ⟨D, hD⟩
  have h := hD (D + 1)
  rw [RealtimeReceiver.zeroDecoder_drain_length (D + 1) []] at h
  simp only [List.length_nil, Nat.zero_add] at h
  omega

/-- C8 amended: the Decode Worker's enqueue enforces no depth policy at
all: a successful decode always appends the entire decoded frame to the
Sample Queue, dropping nothing (the new depth is the old depth plus the
frame length), and the queue depth grows without bound as packets are
processed. -/
theorem C8_amended_unbounded_enqueue :
    (∀ (decoder : LyraDecoder) (p : List Nat) (rest : List (List Nat))
        (pcm : List Int) (decoded : List Int),
      p ≠ [] → decoder.SetEncodedPacket p = true →
      decoder.DecodeSamples p kFramesPerBuffer = some decoded →
      (RealtimeReceiver.decoder_thread_body decoder (p :: rest) pcm).2 =
        pcm ++ decoded ∧
      (RealtimeReceiver.decoder_thread_body decoder
          (p :: rest) pcm).2.length = pcm.length + decoded.length) ∧
    (∀ n : Nat,
      (RealtimeReceiver.decoder_thread_drain zeroDecoder
        (List.replicate n [1]) []).length = 320 * n) := by
  constructor
  · intro decoder p rest pcm decoded hne haccept hsome
    obtain ⟨a, t, rfl⟩ := List.exists_cons_of_ne_nil hne
    constructor
    · simp [RealtimeReceiver.decoder_thread_body, haccept, hsome]
    · simp [RealtimeReceiver.decoder_thread_body, haccept, hsome]
  · intro n
    rw [RealtimeReceiver.zeroDecoder_drain_length n []]
    simp

/-- Witness for C8's amended statement: `zeroDecoder` on one packet over a
2-sample queue yields a 322-sample queue (nothing dropped). -/
theorem C8_amended_unbounded_enqueue_witness :
    (RealtimeReceiver.decoder_thread_body zeroDecoder [[1]] [4, 5]).2.length =
      2 + 320 :=
  ((C8_amended_unbounded_enqueue.1 zeroDecoder [1] [] [4, 5]
    (List.replicate 320 0) (by decide) rfl rfl).2).trans
    (by rw [List.length_replicate]; rfl)

/-- C7: the queue operations satisfy their contract — `push` appends at the
tail; `try_pop` removes and returns the head of a non-empty queue and
returns empty leaving an empty queue unchanged — and consequently, over any
sequence of operations starting from an empty queue, the consumer observes
exactly a prefix of the pushed items, in push order (FIFO). -/
theorem C7_queue_fifo {α : Type} (ops : List (QOp α)) :
    (∀ (q : List α) (x : α), qpush q x = q ++ [x]) ∧
    tryPop ([] : List α) = (none, []) ∧
    (∀ (h : α) (t : List α), tryPop (h :: t) = (some h, t)) ∧
    (runQOps ops ([] : List α) []).2 ++ (runQOps ops [] []).1 =
      pushedItems ops ∧
    (runQOps ops ([] : List α) []).2 <+: pushedItems ops := by
  have hinv := runQOps_invariant ops ([] : List α) []
  simp only [List.append_nil, List.nil_append] at hinv
  exact ⟨fun _ _ => rfl, rfl, fun _ _ => rfl, hinv,
    ⟨(runQOps ops [] []).1, hinv⟩⟩

/-- Counterexample to C2: the claimed stop ordering fails for the sender
executable (its second cleanup action is `Pa_StopStream`, not a transport
shutdown, and it joins the network thread only after closing the audio
stream), so it does not hold for both executables. -/
theorem C2_stop_order_counterexample :
    (claimedStopOrder receiverStopSequence &&
      claimedStopOrder senderStopSequence) = false ∧
    claimedStopOrder senderStopSequence = false := by decide

/-- C2 amended: the receiver's stop sequence does set the Shutdown Flag,
then force-shut the Transport Handle, then join all worker threads, and
only then stop and close the audio stream; the sender instead sets the
flag, stops and closes the audio stream, and joins its network thread only
afterwards, never touching its transport handle. -/
theorem C2_amended_stop_order :
    claimedStopOrder receiverStopSequence = true ∧
    senderActualStopOrder senderStopSequence = true := by decide

/-- Counterexample to C3: with valid arguments and a working codec, a
socket-creation failure still lets the receiver exit 0 (the failure only
ends the network thread), a bind failure likewise, an unchecked audio
open/start failure still lets the receiver exit 0, and the same holds for
the sender — contradicting "exit 1 on any fatal initialization failure
(socket creation/bind, audio-device open/start)". -/
theorem C3_exit_code_counterexample :
    receiver_main true true false true true true = 0 ∧
    receiver_main true true true false true true = 0 ∧
    receiver_main true true true true false false = 0 ∧
    sender_main true true false true true = 0 ∧
    sender_main true true true false false = 0 := by decide

/-- C3 amended: every executable exits 0 on clean shutdown; the receiver
and sender exit 1 exactly when the argument count is wrong or codec
construction fails (socket creation/bind failures only terminate the
network thread, and audio-device errors are unchecked, leaving the exit
code 0); the demo exits 1 exactly when a codec instance, PortAudio
initialisation, a default device, or a stream open/start/stop/close step
fails. -/
theorem C3_amended_exit_codes :
    (∀ a d s b o st, receiver_main a d s b o st =
      if a && d then 0 else 1) ∧
    (∀ a e s o st, sender_main a e s o st =
      if a && e then 0 else 1) ∧
    (∀ e d i di dOut o st sp c, demo_main e d i di dOut o st sp c =
      if e && d && i && di && dOut && o && st && sp && c then 0
      else 1) := by
  refine ⟨?_, ?_, ?_⟩
  · intro a d s b o st
    cases a <;> cases d <;> rfl
  · intro a e s o st
    cases a <;> cases e <;> rfl
  · intro e d i di dOut o st sp c
    cases e <;> cases d <;> cases i <;> cases di <;> cases dOut <;>
      cases o <;> cases st <;> cases sp <;> cases c <;> rfl

/-- C10: in the demo's audio callback, every failing stage — encode
returning no packet, the decoder rejecting the packet, or decode producing
no frame — zero-fills the entire `frameCount`-sample output frame; and in
every case, success or failure, the callback returns `paContinue`. -/
theorem C10_demo_callback_fail_silence (frameCount : Nat)
    (prevOut : List Int) (decoder : LyraDecoder) :
    (RealtimeDemo.audioCallback frameCount prevOut none decoder).1 =
      List.replicate frameCount 0 ∧
    (∀ pkt, decoder.SetEncodedPacket pkt = false →
      (RealtimeDemo.audioCallback frameCount prevOut (some pkt)
        decoder).1 = List.replicate frameCount 0) ∧
    (∀ pkt, decoder.SetEncodedPacket pkt = true →
      decoder.DecodeSamples pkt frameCount = none →
      (RealtimeDemo.audioCallback frameCount prevOut (some pkt)
        decoder).1 = List.replicate frameCount 0) ∧
    (∀ encoded,
      (RealtimeDemo.audioCallback frameCount prevOut encoded
        decoder).2 = paContinue) := by
  refine ⟨rfl, ?_, ?_, ?_⟩
  · intro pkt hreject
    simp [RealtimeDemo.audioCallback, hreject]
  · intro pkt haccept hnone
    simp [RealtimeDemo.audioCallback, haccept, hnone]
  · intro encoded
    match encoded with
    | none => rfl
    | some pkt =>
      simp only [RealtimeDemo.audioCallback]
      split
      · split <;> rfl
      · rfl

/-- Witness for C10: a rejecting decoder and a frame-less decode each
zero-fill a 4-sample frame over stale buffer contents, and the callback
returns `paContinue`. -/
theorem C10_demo_callback_fail_silence_witness :
    (RealtimeDemo.audioCallback 4 [9, 9, 9, 9] (some [1])
      ⟨fun _ => false, fun _ _ => none⟩).1 = List.replicate 4 0 ∧
    (RealtimeDemo.audioCallback 4 [9, 9, 9, 9] (some [1])
      ⟨fun _ => true, fun _ _ => none⟩).1 = List.replicate 4 0 ∧
    (RealtimeDemo.audioCallback 4 [9, 9, 9, 9] (some [1])
      ⟨fun _ => true, fun _ _ => none⟩).2 = paContinue :=
  ⟨(C10_demo_callback_fail_silence 4 [9, 9, 9, 9]
      ⟨fun _ => false, fun _ _ => none⟩).2.1 [1] rfl,
   (C10_demo_callback_fail_silence 4 [9, 9, 9, 9]
      ⟨fun _ => true, fun _ _ => none⟩).2.2.1 [1] rfl rfl,
   (C10_demo_callback_fail_silence 4 [9, 9, 9, 9]
      ⟨fun _ => true, fun _ _ => none⟩).2.2.2 (some [1])⟩
